import Mathlib

/-!
Shallow embedding of the crisp interpreter core (tokenizer, parser,
environment, evaluator and keyword handlers) as found under src/.

Conventions used throughout:
* Rust `f64` numbers are modelled as `Rat`; every arithmetic step exercised
  by the theorems below is exact in IEEE double precision, so the results
  coincide on those inputs.
* Rust `HashMap<String, CrispExpr>` is modelled as an association list where
  `insert` conses a fresh binding in front and `get` takes the first match;
  this has the same observable get/insert behaviour.
* A Rust function that can panic (an `unwrap` that can fail, or a match that
  is not exhaustive for the value it receives) is modelled with an `Option`
  wrapper; `none` means the Rust code does not return (panic).
* Recursive evaluation and parsing are totalised with an explicit fuel
  argument; fuel is consumed one unit per recursive step, and the top level
  wrappers supply fuel that dominates the recursion depth of the source
  (which descends into strict subterms, resp. consumes tokens).
-/

/-- Error type from src/src/error.rs, plus the `Reason` variant that
src/src/eval.rs and src/src/env.rs construct (`CrispError::Reason`).
`ArgumentError` carries the `(min, max)` pair of `i32`s. -/
inductive CrispError where
  | ArgumentError (min max : Int)
  | LoadError (msg : String)
  | ParseError (msg : String)
  | StandardError (msg : String)
  | TypeError (expected : String)
  | Reason (msg : String)
deriving DecidableEq

/-- The nine native functions registered by `initialize_environment` in
src/src/env.rs. The Rust `CrispExpr::Func` variant stores a function
pointer; since exactly these nine closures are ever stored there, the
variant is defunctionalised into this tag type, applied by `applyNative`. -/
inductive NativeFunc where
  | add | sub | mult | div
  | eq | gt | lt | gte | lte
deriving DecidableEq

/-- Value model. Union of the variants used across src/: src/src/expr.rs
declares Symbol, CrispString, Number, Bool, List, Func, Lambda; the reader
(src/src/reader.rs) additionally constructs Nil and Char values. The
`Lambda` variant inlines the two `Rc<CrispExpr>` fields of `CrispLambda`
(`args` and `func`); sharing via `Rc` is not observable for values. -/
inductive CrispExpr where
  | Symbol (s : String)
  | CrispString (s : String)
  | Number (n : Rat)
  | Bool (b : Bool)
  | List (l : List CrispExpr)
  | Func (f : NativeFunc)
  | Lambda (args : CrispExpr) (func : CrispExpr)
  | Nil
  | Char (c : Char)

/-- Environment from src/src/env.rs: a single `data` map and nothing else
(the struct has no parent link). -/
structure CrispEnv where
  data : List (String × CrispExpr)

/-- First-match association-list lookup; models `HashMap::get`. -/
def lookupAssoc : List (String × CrispExpr) → String → Option CrispExpr
  | [], _ => none
  | (k, v) :: rest, key => if k = key then some v else lookupAssoc rest key

/-- Models `env.data.get(key)` as used by eval (src/src/eval.rs line 6). -/
def envGet (env : CrispEnv) (key : String) : Option CrispExpr :=
  lookupAssoc env.data key

/-- Models `env.data.insert(name, value)` (overwrite-on-insert). -/
def envInsert (key : String) (value : CrispExpr) (env : CrispEnv) : CrispEnv :=
  ⟨(key, value) :: env.data⟩

/-- Models `extract_number` from src/src/env.rs. -/
def extractNumber : CrispExpr → Except CrispError Rat
  | .Number n => .ok n
  | _ => .error (.Reason "Expected a number.")

/-- Models `extract_list_numbers` from src/src/env.rs: `collect` over an
iterator of `Result`s stops at the first error. -/
def extractListNumbers : List CrispExpr → Except CrispError (List Rat)
  | [] => .ok []
  | e :: rest =>
    match extractNumber e with
    | .error err => .error err
    | .ok n =>
      match extractListNumbers rest with
      | .error err => .error err
      | .ok ns => .ok (n :: ns)

/-- Models `list_foldl` from src/src/env.rs (lines 92-102): extract the
numbers, then fold the operation from the first element; the empty argument
list is the only arity error, reported as `Reason "Expected 1+ arguments."`. -/
def listFoldl (list : List CrispExpr) (operation : Rat → Rat → Rat) :
    Except CrispError CrispExpr :=
  match extractListNumbers list with
  | .error e => .error e
  | .ok numbers =>
    match numbers with
    | [] => .error (.Reason "Expected 1+ arguments.")
    | first :: rest => .ok (.Number (rest.foldl operation first))

/-- The inner recursive chain check of the `bool_compare!` macro in
src/src/env.rs: `f(head, next) && f(next, ...)` down the list. -/
def monotonicChain (f : Rat → Rat → Bool) : Rat → List Rat → Bool
  | _, [] => true
  | head, next :: rest => f head next && monotonicChain f next rest

/-- Models the closure generated by `bool_compare!` in src/src/env.rs. -/
def boolCompare (f : Rat → Rat → Bool) (args : List CrispExpr) :
    Except CrispError CrispExpr :=
  match extractListNumbers args with
  | .error e => .error e
  | .ok xs =>
    match xs with
    | [] => .error (.Reason "Expected 1+ arguments.")
    | head :: tail => .ok (.Bool (monotonicChain f head tail))

/-- Applies one of the nine registered natives (src/src/env.rs,
`initialize_environment`). -/
def applyNative : NativeFunc → List CrispExpr → Except CrispError CrispExpr
  | .add, args => listFoldl args (fun acc n => acc + n)
  | .sub, args => listFoldl args (fun acc n => acc - n)
  | .mult, args => listFoldl args (fun acc n => acc * n)
  | .div, args => listFoldl args (fun acc n => acc / n)
  | .eq, args => boolCompare (fun a b => decide (a = b)) args
  | .gt, args => boolCompare (fun a b => decide (a > b)) args
  | .lt, args => boolCompare (fun a b => decide (a < b)) args
  | .gte, args => boolCompare (fun a b => decide (a ≥ b)) args
  | .lte, args => boolCompare (fun a b => decide (a ≤ b)) args

/-- The root environment built by `initialize_environment` in src/src/env.rs
(the insertion order of the nine distinct keys is not observable). -/
def initialEnvironment : CrispEnv :=
  ⟨[("+", .Func .add), ("-", .Func .sub), ("*", .Func .mult),
    ("/", .Func .div), ("=", .Func .eq), (">", .Func .gt),
    ("<", .Func .lt), (">=", .Func .gte), ("<=", .Func .lte)]⟩

/-- Rendering of a number, standing in for Rust's `f64` Display. The exact
text is never load-bearing in this development (it only feeds error
messages). -/
def ratDisplay (n : Rat) : String :=
  if n.den = 1 then toString n.num else toString n

/-- The single-quote character. -/
def singleQuote : Char := Char.ofNat 39

/-- The double-quote character. -/
def doubleQuote : Char := Char.ofNat 34

/-- The backslash character. -/
def backslash : Char := Char.ofNat 92

/-- Simplified model of `escape_string` from src/src/main.rs (which defers
to the external snailquote crate): wrap in single quotes. Only used to
build display text, never load-bearing. -/
def escapeString (s : String) : String :=
  String.singleton singleQuote ++ s ++ String.singleton singleQuote

mutual

/-- Model of the `Display` impl in src/src/expr.rs (that file predates the
`Nil`/`Char` variants; they are rendered in the obvious way here). The text
only feeds `Reason` error messages and is not load-bearing. -/
def crispDisplay : CrispExpr → String
  | .Symbol s => s
  | .CrispString s => s
  | .Number n => ratDisplay n
  | .Bool b => if b then "true" else "false"
  | .List l => "(" ++ crispDisplayList l ++ ")"
  | .Func _ => "<Func>"
  | .Lambda _ _ => "<Lambda>"
  | .Nil => "nil"
  | .Char c => String.singleton c

/-- Space-joined rendering of list elements, escaping strings, as in the
`List` arm of the `Display` impl in src/src/expr.rs. -/
def crispDisplayList : List CrispExpr → String
  | [] => ""
  | [e] => crispDisplayItem e
  | e :: rest => crispDisplayItem e ++ " " ++ crispDisplayList rest

/-- One list element: `CrispString`s are escaped, the rest displayed. -/
def crispDisplayItem : CrispExpr → String
  | .CrispString s => escapeString s
  | e => crispDisplay e

end

/-- The check done by `eval_keyword` in src/src/eval.rs: the head is a
`Symbol` whose name is `"if"` (the only keyword that evaluator knows). -/
def isIfSymbol : CrispExpr → Bool
  | .Symbol s => s = "if"
  | _ => false

/-- Evaluates a list of expressions left to right, stopping at the first
error; models the `collect::<Result<Vec<_>, _>>()` in src/src/eval.rs. -/
def evalList (ev : CrispExpr → Option (Except CrispError CrispExpr)) :
    List CrispExpr → Option (Except CrispError (List CrispExpr))
  | [] => some (.ok [])
  | a :: rest =>
    match ev a with
    | none => none
    | some (.error e) => some (.error e)
    | some (.ok v) =>
      match evalList ev rest with
      | none => none
      | some (.error e) => some (.error e)
      | some (.ok vs) => some (.ok (v :: vs))

/-- Fuelled model of `eval` from src/src/eval.rs, with that file's private
`eval_if` inlined in the `"if"` branch (it is the only keyword
`eval_keyword` there dispatches). `none` models a non-returning execution:
either the fuel ran out, or the expression hit a variant that the `match`
in src/src/eval.rs has no arm for (`CrispString`, `Lambda`, `Nil`, `Char`).
Every recursive call is on a strict subterm, so fuel `sizeOf expr` (used by
the `eval` wrapper below) never runs out. The environment is never mutated
by this evaluator (none of the nine natives touches it), so it is passed by
value. -/
def evalFuel : Nat → CrispExpr → CrispEnv → Option (Except CrispError CrispExpr)
  | 0, _, _ => none
  | _ + 1, .Symbol key, env =>
    some (match envGet env key with
      | some v => .ok v
      | none => .error (.Reason ("Unexpected symbol: " ++ key)))
  | _ + 1, .Number n, _ => some (.ok (.Number n))
  | _ + 1, .Bool b, _ => some (.ok (.Bool b))
  | fuel + 1, .List list, env =>
    match list with
    | [] => some (.error (.Reason "Received an empty list."))
    | head :: args =>
      if isIfSymbol head then
        match args with
        | [] => some (.error (.Reason "No predicate found."))
        | p :: _ =>
          match evalFuel fuel p env with
          | none => none
          | some (.error e) => some (.error e)
          | some (.ok (.Bool b)) =>
            match args.get? (if b then 1 else 2) with
            | none => some (.error (.Reason ("Predicate returned "
                ++ (if b then "true" else "false")
                ++ " but nothing to evaluate.")))
            | some response => evalFuel fuel response env
          | some (.ok pr) =>
            some (.error (.Reason ("Unexpected predicate: `"
                ++ crispDisplay pr ++ "`")))
      else
        match evalFuel fuel head env with
        | none => none
        | some (.error e) => some (.error e)
        | some (.ok (.Func f)) =>
          match evalList (fun a => evalFuel fuel a env) args with
          | none => none
          | some (.error e) => some (.error e)
          | some (.ok vals) => some (applyNative f vals)
        | some (.ok _) =>
          some (.error (.Reason "List must begin with a function."))
  | _ + 1, .Func _, _ =>
    some (.error (.Reason "Found unexpected function in list."))
  | _ + 1, .CrispString _, _ => none
  | _ + 1, .Lambda _ _, _ => none
  | _ + 1, .Nil, _ => none
  | _ + 1, .Char _, _ => none

/-- Whether an expression is a `Symbol`; used to state decidably that a
value is (not) a symbol. -/
def isSymbol : CrispExpr → Bool
  | .Symbol _ => true
  | _ => false

/-- Model of `eval_if` from src/src/keywords.rs (lines 41-54): the keyword
module's `if` handler. `check_argument_error!(args, 3, 3)` rejects any
argument count other than exactly 3 with `ArgumentError(3, 3)`; afterwards
the two `unwrap`s cannot fail (the length is known), so the only `none`
results are propagated from the recursive evaluator (src/src/eval.rs
`eval`, which this module imports). -/
def evalIfKw (fuel : Nat) (args : List CrispExpr) (env : CrispEnv) :
    Option (Except CrispError CrispExpr) :=
  if args.length < 3 ∨ 3 < args.length then
    some (.error (.ArgumentError 3 3))
  else
    match args with
    | p :: _ =>
      match evalFuel fuel p env with
      | none => none
      | some (.error e) => some (.error e)
      | some (.ok (.Bool b)) =>
        match args.get? (if b then 1 else 2) with
        | some response => evalFuel fuel response env
        | none => none
      | some (.ok _) => some (.error (.TypeError "Bool"))
    | [] => none

/-- Model of `eval_let` from src/src/keywords.rs (lines 71-84): exactly two
arguments, the first a `Symbol`, the value expression evaluated with the
evaluator from src/src/eval.rs, the result inserted into the current (and
only) scope, and the bound value returned together with the updated
environment (the Rust function mutates `env` in place). -/
def evalLet (fuel : Nat) (args : List CrispExpr) (env : CrispEnv) :
    Option (Except CrispError (CrispExpr × CrispEnv)) :=
  match args with
  | [nameExpr, valueExpr] =>
    match nameExpr with
    | .Symbol s =>
      match evalFuel fuel valueExpr env with
      | none => none
      | some (.error e) => some (.error e)
      | some (.ok v) => some (.ok (v, envInsert s v env))
    | _ => some (.error (.TypeError "Symbol"))
  | _ => some (.error (.ArgumentError 2 2))

/-- Model of `eval_keyword_lambda` from src/src/keywords.rs (lines
102-116): exactly two arguments; the first is stored as the parameter list
when it already is a `List` (its elements are not inspected), a bare
`Symbol` is wrapped into a one-element list, anything else is a
`TypeError`; the body is stored unevaluated. Total: after the length check
the two `unwrap`s cannot fail. -/
def evalKeywordLambda (args : List CrispExpr) : Except CrispError CrispExpr :=
  match args with
  | [a, body] =>
    match a with
    | .List l => .ok (.Lambda (.List l) body)
    | .Symbol s => .ok (.Lambda (.List [.Symbol s]) body)
    | _ => .error (.TypeError "Symbol || List<Symbol>")
  | _ => .error (.ArgumentError 2 2)

/-- Model of `eval_fn` from src/src/keywords.rs (lines 140-154): exactly
three arguments; the first must be a `Symbol`; the rest is handed to
`eval_keyword_lambda`, and the resulting lambda is bound under the name in
the current scope and returned. -/
def evalFn (args : List CrispExpr) (env : CrispEnv) :
    Except CrispError (CrispExpr × CrispEnv) :=
  match args with
  | nameExpr :: tail =>
    match tail with
    | [_, _] =>
      match nameExpr with
      | .Symbol s =>
        match evalKeywordLambda tail with
        | .ok lam => .ok (lam, envInsert s lam env)
        | .error e => .error e
      | _ => .error (.TypeError "Symbol")
    | _ => .error (.ArgumentError 3 3)
  | [] => .error (.ArgumentError 3 3)

/-- The tokenizer states of src/src/reader.rs (`TokenState`). -/
inductive TokenState where
  | Scanning
  | Char
  | Comment
  | String

/-- The mutable locals of `tokenize` in src/src/reader.rs: the tokens
emitted so far, the token being accumulated, and the current state. -/
structure TokenizerState where
  tokens : List String
  current : String
  state : TokenState

/-- Flush `current` onto `tokens` when it is nonempty (the repeated
`if !current_token.is_empty() { tokens.push(...); ... }` idiom). -/
def flushCurrent (tokens : List String) (current : String) : List String :=
  if current ≠ "" then tokens ++ [current] else tokens

/-- One character step of the `for ch in input.chars()` loop of `tokenize`
in src/src/reader.rs (lines 26-107). -/
def tokenizeStep (st : TokenizerState) (ch : Char) : TokenizerState :=
  match st.state with
  | .Scanning =>
    if ch = ',' then
      { st with state := .Char, current := st.current.push ch }
    else if ch = ';' then
      { tokens := flushCurrent st.tokens st.current, current := "",
        state := .Comment }
    else if ch = doubleQuote ∨ ch = singleQuote then
      { st with state := .String, current := st.current.push ch }
    else if ch = ' ' ∨ ch = Char.ofNat 10 ∨ ch = Char.ofNat 9 then
      { st with tokens := flushCurrent st.tokens st.current, current := "" }
    else if ch = '(' then
      { st with
        tokens := flushCurrent st.tokens st.current ++ ["("]
        current := "" }
    else if ch = ')' then
      { st with
        tokens := flushCurrent st.tokens st.current ++ [")"]
        current := "" }
    else
      { st with current := st.current.push ch }
  | .Char =>
    { tokens := st.tokens ++ [st.current.push ch], current := "",
      state := .Scanning }
  | .Comment =>
    if ch = Char.ofNat 10 then { st with state := .Scanning } else st
  | .String =>
    if (ch = doubleQuote ∨ ch = singleQuote)
        ∧ st.current.toList.getLast? ≠ some backslash then
      { tokens := st.tokens ++ [st.current.push ch], current := "",
        state := .Scanning }
    else
      { st with current := st.current.push ch }

/-- The state after scanning the whole input, starting from the initial
empty state of `tokenize`. -/
def tokenizeRun (input : String) : TokenizerState :=
  input.toList.foldl tokenizeStep ⟨[], "", .Scanning⟩

/-- The scanned token stream: the loop of `tokenize` plus the trailing
dangling-token flush (src/src/reader.rs lines 109-113), before the
outer-parenthesis wrapping step. -/
def tokenizeScan (input : String) : List String :=
  flushCurrent (tokenizeRun input).tokens (tokenizeRun input).current

/-- Model of `tokenize` from src/src/reader.rs (lines 21-122): the scan,
then the wrap step `if tokens.len() > 1 && *tokens.first().unwrap() != "("`
which inserts a leading `(` and a trailing `)`. -/
def tokenize (input : String) : List String :=
  if 1 < (tokenizeScan input).length
      ∧ (tokenizeScan input).head? ≠ some "(" then
    "(" :: tokenizeScan input ++ [")"]
  else
    tokenizeScan input

/-- Numeric digit-string value. -/
def digitsVal (cs : List Char) : Nat :=
  cs.foldl (fun acc c => 10 * acc + (c.toNat - 48)) 0

/-- Unsigned part of the model of Rust's `str::parse::<f64>` used by
`parse_atom`: accepts `digits`, `digits.digits`, `digits.` and `.digits`
exactly. (Rust additionally accepts exponents and inf/NaN spellings; no
token exercised by any theorem below takes those shapes, and whether a
token parses as a number only switches `parse_atom` between `Number` and
`Symbol`, which no settled claim depends on for such tokens.) -/
def parseUnsigned (cs : List Char) : Option Rat :=
  let intPart := cs.takeWhile (fun c => c ≠ '.')
  let rest := cs.drop intPart.length
  if ¬ intPart.all Char.isDigit then none
  else
    match rest with
    | [] => if intPart.isEmpty then none else some ((digitsVal intPart : Int) : Rat)
    | _ :: frac =>
      if ¬ frac.all Char.isDigit then none
      else if intPart.isEmpty ∧ frac.isEmpty then none
      else some ((digitsVal intPart : Rat)
        + (digitsVal frac : Rat) / ((10 : Rat) ^ frac.length))

/-- Model of `token.parse::<f64>()`: optional leading minus sign, then an
unsigned number. -/
def parseNumber (s : String) : Option Rat :=
  match s.toList with
  | '-' :: rest => (parseUnsigned rest).map (fun q => -q)
  | cs => parseUnsigned cs

/-- One escape character of the simplified snailquote model. -/
def unescapeChar (e : Char) : Option Char :=
  if e = 'n' then some (Char.ofNat 10)
  else if e = 't' then some (Char.ofNat 9)
  else if e = 'r' then some (Char.ofNat 13)
  else if e = backslash then some backslash
  else if e = doubleQuote then some doubleQuote
  else if e = singleQuote then some singleQuote
  else none

/-- Backslash-escape processing of the simplified snailquote model. -/
def unescapeChars : List Char → Option (List Char)
  | [] => some []
  | c :: rest =>
    if c = backslash then
      match rest with
      | [] => none
      | e :: rest2 =>
        match unescapeChar e with
        | some c2 => (unescapeChars rest2).map (fun l => c2 :: l)
        | none => none
    else
      (unescapeChars rest).map (fun l => c :: l)

/-- Simplified model of the external `snailquote::unescape` crate function
used by `parse_atom`: strip one pair of matching quote delimiters and
resolve a core set of backslash escapes, failing (`none`) otherwise. The
exact escape grammar (snailquote also resolves unicode escapes) is not
load-bearing for any theorem below. -/
def snailUnescape (s : String) : Option String :=
  match s.toList with
  | [] => none
  | q :: rest =>
    if q = doubleQuote ∨ q = singleQuote then
      match rest.getLast? with
      | some q2 =>
        if q2 = q then (unescapeChars rest.dropLast).map (fun l => ⟨l⟩)
        else none
      | none => none
    else none

/-- Model of `parse_atom` from src/src/reader.rs (lines 166-193). The
`none` results model the two reachable panics: `token.chars().next()
.unwrap()` on an empty token, and — decisive for the safety claim —
`token.chars().nth(1).unwrap()` when a token starts with the char marker
`,` but has no second character. -/
def parseAtom (token : String) : Option (Except CrispError CrispExpr) :=
  if token = "true" then some (.ok (.Bool true))
  else if token = "false" then some (.ok (.Bool false))
  else if token = "nil" then some (.ok .Nil)
  else
    match token.toList with
    | [] => none
    | c :: rest =>
      if c = ',' then
        match rest with
        | [] => none
        | c2 :: _ => some (.ok (.Char c2))
      else if c = doubleQuote ∨ c = singleQuote then
        match snailUnescape token with
        | some s => some (.ok (.CrispString s))
        | none => some (.error (.ParseError "Invalid string."))
      else
        match parseNumber token with
        | some n => some (.ok (.Number n))
        | none => some (.ok (.Symbol token))

/-- Fuelled model of `parse` and `parse_seq` from src/src/reader.rs (lines
131-164), merged into one function: mode `false` is `parse` (one
expression), mode `true` is the `parse_seq` loop with its accumulator
`res`. Fuel falls by one per call; `parse` consumes a token before calling
`parse_seq`, and each `parse_seq` round trip consumes at least one token,
so the `2 * length + 2` budget of the `parseTokens` wrapper below never
runs out. `none` is a non-returning execution (panic propagated from
`parse_atom`, or fuel). -/
def parseGo : Nat → Bool → List CrispExpr → List String →
    Option (Except CrispError (CrispExpr × List String))
  | 0, _, _, _ => none
  | _ + 1, false, _, [] => some (.ok (.Nil, []))
  | fuel + 1, false, _, head :: tail =>
    if head = "(" then parseGo fuel true [] tail
    else if head = ")" then some (.error (.ParseError "Unexpected `)`."))
    else
      match parseAtom head with
      | none => none
      | some (.error e) => some (.error e)
      | some (.ok expr) => some (.ok (expr, tail))
  | _ + 1, true, _, [] =>
    some (.error (.ParseError "Couldn\x27t find closing `)`."))
  | fuel + 1, true, res, head :: tail =>
    if head = ")" then some (.ok (.List res, tail))
    else
      match parseGo fuel false [] (head :: tail) with
      | none => none
      | some (.error e) => some (.error e)
      | some (.ok (expr, unparsed)) => parseGo fuel true (res ++ [expr]) unparsed

/-- Top-level `parse` of src/src/reader.rs on a token slice. -/
def parseTokens (tokens : List String) :
    Option (Except CrispError (CrispExpr × List String)) :=
  parseGo (2 * tokens.length + 2) false [] tokens

/-! Theorems. Concrete statements use a literal fuel that visibly dominates
the recursion depth of the concrete input (fuel is consumed one unit per
recursive call and the source recursion descends into strict subterms);
universally quantified statements quantify over the fuel. -/

/-- Fuel beyond the recursion depth is irrelevant: a worked example. -/
theorem evalFuel_exampleStableFuel (fuel : Nat) :
    evalFuel (fuel + 2) (.List [.Symbol "if", .Bool true, .Number 1, .Number 2])
      initialEnvironment = some (.ok (.Number 1)) := rfl

/-- Symbol evaluation (src/src/eval.rs lines 6-8) is one direct lookup in
the single flat scope: it returns the bound value, or the
unexpected-symbol error exactly when `env.data` has no binding. There is no
parent scope anywhere in src/src/env.rs to continue into. -/
theorem evalSymbol_flatLookup (fuel : Nat) (key : String) (env : CrispEnv) :
    evalFuel (fuel + 1) (.Symbol key) env
      = some (match envGet env key with
          | some v => .ok v
          | none => .error (.Reason ("Unexpected symbol: " ++ key))) := rfl

/-- C1 (counterexample): contrary to the claim, the evaluator of
src/src/eval.rs does not treat a list whose evaluated head is not callable
as data. `(1 2 3)` and `(1 2 (+ 1 2))` both evaluate to the error
`List must begin with a function.` rather than to a list (the source's own
test `test_eval_list_func_missing` asserts this error as well). -/
theorem c1_counterexample :
    evalFuel 9 (.List [.Number 1, .Number 2, .Number 3]) initialEnvironment
      = some (.error (.Reason "List must begin with a function."))
    ∧ evalFuel 9 (.List [.Number 1, .Number 2,
          .List [.Symbol "+", .Number 1, .Number 2]]) initialEnvironment
      = some (.error (.Reason "List must begin with a function.")) :=
  ⟨rfl, rfl⟩

/-- C1 (amended): for every non-empty list whose head is not the `if`
keyword and whose evaluated head is not a native function (`Func`), eval
returns the error `List must begin with a function.` — non-callable lists
are rejected, not evaluated element-wise. -/
theorem c1_theorem (fuel : Nat) (head : CrispExpr) (args : List CrispExpr)
    (env : CrispEnv) (v : CrispExpr)
    (hkw : isIfSymbol head = false)
    (hhead : evalFuel fuel head env = some (.ok v))
    (hnf : ∀ f, v ≠ .Func f) :
    evalFuel (fuel + 1) (.List (head :: args)) env
      = some (.error (.Reason "List must begin with a function.")) := by
  cases v <;>
    first
    | exact absurd rfl (hnf _)
    | simp only [evalFuel, hkw, Bool.false_eq_true, if_false, hhead]

/-- C1 (witness): the amended theorem applied to the list `(1 9)` in the
root environment, whose head `1` evaluates to the non-callable `Number 1`. -/
theorem c1_witness :
    isIfSymbol (.Number 1) = false
    ∧ evalFuel 1 (.Number 1) initialEnvironment = some (.ok (.Number 1))
    ∧ evalFuel 2 (.List [.Number 1, .Number 9]) initialEnvironment
      = some (.error (.Reason "List must begin with a function.")) :=
  ⟨rfl, rfl,
    c1_theorem 1 (.Number 1) [.Number 9] initialEnvironment (.Number 1)
      rfl rfl (fun _ h => nomatch h)⟩

/-- C2 (counterexample): contrary to the claim, evaluating the empty list
is an error, `Received an empty list.` (the source's own test
`test_eval_list_empty` asserts `is_err` as well), not the empty list. -/
theorem c2_counterexample :
    evalFuel 9 (.List []) initialEnvironment
      = some (.error (.Reason "Received an empty list.")) := rfl

/-- C2 (amended): in every environment, evaluating the empty list returns
the error `Received an empty list.`; the empty list is not self-quoting. -/
theorem c2_theorem (fuel : Nat) (env : CrispEnv) :
    evalFuel (fuel + 1) (.List []) env
      = some (.error (.Reason "Received an empty list.")) := rfl

/-- C3 (confirmed): the `if` handler of the keyword module
(src/src/keywords.rs `eval_if`, lines 41-54; its sub-evaluations use the
evaluator of src/src/eval.rs): any argument count other than exactly 3 is
`ArgumentError(3, 3)`; a predicate reducing to `Bool b` selects, evaluates
and returns only the branch picked by `b` — the untaken branch is
universally quantified and never evaluated (short-circuit); a predicate
reducing to anything else is `TypeError "Bool"`. (The older, reduced copy
of `eval_if` kept inside src/src/eval.rs and wired into that file's
`eval_keyword` table performs no arity check; this theorem is about the
keyword module's handler, the one the claim cites.) -/
theorem c3_theorem :
    (∀ fuel args env, List.length args ≠ 3 →
        evalIfKw fuel args env = some (.error (.ArgumentError 3 3)))
    ∧ (∀ fuel p t e env, evalFuel fuel p env = some (.ok (.Bool true)) →
        evalIfKw fuel [p, t, e] env = evalFuel fuel t env)
    ∧ (∀ fuel p t e env, evalFuel fuel p env = some (.ok (.Bool false)) →
        evalIfKw fuel [p, t, e] env = evalFuel fuel e env)
    ∧ (∀ fuel p t e env v, evalFuel fuel p env = some (.ok v) →
        (∀ b, v ≠ .Bool b) →
        evalIfKw fuel [p, t, e] env = some (.error (.TypeError "Bool"))) := by
  refine ⟨?_, ?_, ?_, ?_⟩
  · intro fuel args env h
    have hlen : args.length < 3 ∨ 3 < args.length := by omega
    simp [evalIfKw, hlen]
  · intro fuel p t e env h
    simp [evalIfKw, h]
  · intro fuel p t e env h
    simp [evalIfKw, h]
  · intro fuel p t e env v h hnb
    cases v <;>
      first
      | exact absurd rfl (hnb _)
      | simp [evalIfKw, h]

/-- C3 (witness): the theorem applied at concrete inputs: a true and a
false literal predicate with numeric branches, a 1-argument call, and a
numeric (non-Bool) predicate. -/
theorem c3_witness :
    evalIfKw 1 [.Bool true, .Number 1, .Number 2] initialEnvironment
      = some (.ok (.Number 1))
    ∧ evalIfKw 1 [.Bool false, .Number 1, .Number 2] initialEnvironment
      = some (.ok (.Number 2))
    ∧ evalIfKw 1 [.Bool true] initialEnvironment
      = some (.error (.ArgumentError 3 3))
    ∧ evalIfKw 1 [.Number 7, .Number 1, .Number 2] initialEnvironment
      = some (.error (.TypeError "Bool")) :=
  ⟨(c3_theorem.2.1 1 (.Bool true) (.Number 1) (.Number 2)
      initialEnvironment rfl).trans rfl,
   (c3_theorem.2.2.1 1 (.Bool false) (.Number 1) (.Number 2)
      initialEnvironment rfl).trans rfl,
   c3_theorem.1 1 [.Bool true] initialEnvironment (by decide),
   c3_theorem.2.2.2 1 (.Number 7) (.Number 1) (.Number 2)
      initialEnvironment (.Number 7) rfl (fun _ h => nomatch h)⟩

/-- Helper for C4: every successful `eval_keyword_lambda` stores a `List`
as the parameter field of the constructed closure. -/
theorem evalKeywordLambda_shape (args : List CrispExpr) (res : CrispExpr)
    (h : evalKeywordLambda args = .ok res) :
    ∃ ps body, res = .Lambda (.List ps) body := by
  rcases args with _ | ⟨a, _ | ⟨b, _ | ⟨c, rest⟩⟩⟩
  · simp [evalKeywordLambda] at h
  · simp [evalKeywordLambda] at h
  · cases a <;> simp [evalKeywordLambda] at h <;> exact ⟨_, _, h.symm⟩
  · simp [evalKeywordLambda] at h

/-- C4 (counterexample): contrary to the claim, lambda construction does
not enforce that the parameter list contains only `Symbol`s: the lambda
literal `(\ (3 b) 0)` succeeds and stores `(3 b)` — which contains the
non-symbol `3` — as the parameter list (the source's own test
`test_lambda_list_err` comments that this input only fails at call time). -/
theorem c4_counterexample :
    evalKeywordLambda [.List [.Number 3, .Symbol "b"], .Number 0]
      = .ok (.Lambda (.List [.Number 3, .Symbol "b"]) (.Number 0))
    ∧ [CrispExpr.Number 3, CrispExpr.Symbol "b"].all isSymbol = false :=
  ⟨rfl, rfl⟩

/-- C4 (amended): after lambda construction succeeds (via the lambda
literal or `fn`), the stored parameter field is always a `List`, and a
bare `Symbol` parameter is normalized to a single-element list of that
symbol; but the elements of a `List` parameter are not checked to be
`Symbol`s at construction time (they are validated only when the closure
is called). -/
theorem c4_theorem :
    (∀ args res, evalKeywordLambda args = .ok res →
        ∃ ps body, res = .Lambda (.List ps) body)
    ∧ (∀ s body, evalKeywordLambda [.Symbol s, body]
        = .ok (.Lambda (.List [.Symbol s]) body))
    ∧ (∀ args env res env2, evalFn args env = .ok (res, env2) →
        ∃ ps body, res = .Lambda (.List ps) body) := by
  refine ⟨evalKeywordLambda_shape, fun s body => rfl, ?_⟩
  intro args env res env2 h
  rcases args with _ | ⟨nameExpr, _ | ⟨p, _ | ⟨b, _ | ⟨c, rest⟩⟩⟩⟩
  · simp [evalFn] at h
  · simp [evalFn] at h
  · simp [evalFn] at h
  · cases nameExpr <;> simp [evalFn] at h
    case Symbol s =>
      cases hkl : evalKeywordLambda [p, b] with
      | error e => rw [hkl] at h; simp at h
      | ok lam =>
        rw [hkl] at h
        simp at h
        obtain ⟨ps, body, hshape⟩ := evalKeywordLambda_shape [p, b] lam hkl
        exact ⟨ps, body, h.1 ▸ hshape⟩
  · simp [evalFn] at h

/-- C4 (witness): the amended theorem applied to a concrete lambda literal
and a concrete `fn` form. -/
theorem c4_witness :
    (∃ ps body, (CrispExpr.Lambda (.List [.Number 3, .Symbol "b"])
        (.Number 0)) = .Lambda (.List ps) body)
    ∧ evalKeywordLambda [.Symbol "a", .Number 0]
      = .ok (.Lambda (.List [.Symbol "a"]) (.Number 0))
    ∧ (∃ ps body, (CrispExpr.Lambda (.List [.Symbol "a"])
        (.Number 0)) = .Lambda (.List ps) body) :=
  ⟨c4_theorem.1 [.List [.Number 3, .Symbol "b"], .Number 0] _ rfl,
   c4_theorem.2.1 "a" (.Number 0),
   c4_theorem.2.2 [.Symbol "d", .Symbol "a", .Number 0] initialEnvironment
     (.Lambda (.List [.Symbol "a"]) (.Number 0))
     (envInsert "d" (.Lambda (.List [.Symbol "a"]) (.Number 0))
       initialEnvironment) rfl⟩

/-- C6 (code_bug): the tokenizer turns the one-character program `,` into
the single token `,` (the char-marker state never sees a following
character, and the dangling token is flushed); `parse_atom` then executes
`token.chars().nth(1).unwrap()` on it, which panics — modelled as `none`.
The spec's guarantee that tokenize-then-parse never panics is the
documented intent; the unguarded `unwrap` is the slip. -/
theorem c6_theorem :
    tokenize "," = [","]
    ∧ parseAtom "," = none
    ∧ parseTokens [","] = none :=
  ⟨rfl, rfl, rfl⟩

/-- C7 (counterexample): contrary to the claim, a non-empty scanned token
stream that does not begin with `(` is not always wrapped: the wrap step of
`tokenize` (src/src/reader.rs line 116) requires `tokens.len() > 1`, so the
single-token stream of input `1` stays unwrapped. -/
theorem c7_counterexample :
    tokenizeScan "1" = ["1"]
    ∧ tokenize "1" = ["1"]
    ∧ ["1"] ≠ ["(", "1", ")"] :=
  ⟨rfl, rfl, by decide⟩

/-- C7 (amended): for every input whose scanned token stream has more than
one token and does not begin with `(`, tokenize returns that stream wrapped
with one leading `(` and one trailing `)`. -/
theorem c7_theorem (input : String)
    (h1 : 1 < (tokenizeScan input).length)
    (h2 : (tokenizeScan input).head? ≠ some "(") :
    tokenize input = "(" :: tokenizeScan input ++ [")"] := by
  simp [tokenize, h1, h2]

/-- C7 (witness): the amended theorem applied to the bare top-level
expression `+ 3`. -/
theorem c7_witness :
    1 < (tokenizeScan "+ 3").length
    ∧ (tokenizeScan "+ 3").head? ≠ some "("
    ∧ tokenize "+ 3" = ["(", "+", "3", ")"] :=
  ⟨by decide, by decide, ( c7_theorem "+ 3" (by decide) (by decide)).trans rfl⟩

/-- C8 (counterexample): contrary to the claim, the `+` registered by
`initialize_environment` in src/src/env.rs accepts a single argument:
`(+ 1)` evaluates to `Number 1` (the fold over no remaining elements
returns the first number), not to an `ArgumentError`. -/
theorem c8_counterexample :
    evalFuel 9 (.List [.Symbol "+", .Number 1]) initialEnvironment
      = some (.ok (.Number 1)) := rfl

/-- C8 (amended): the registered native addition has no minimum-two
arity check: on a single number it returns that number; only an empty
argument list errors, and with `Reason "Expected 1+ arguments."` rather
than an at-least-2 `ArgumentError`; in any environment binding `+` to the
addition native, `(+ 1)` evaluates to `Number 1`. -/
theorem c8_theorem :
    (∀ n : Rat, applyNative .add [.Number n] = .ok (.Number n))
    ∧ applyNative .add [] = .error (.Reason "Expected 1+ arguments.")
    ∧ (∀ fuel env, envGet env "+" = some (.Func .add) →
        evalFuel (fuel + 2) (.List [.Symbol "+", .Number 1]) env
          = some (.ok (.Number 1))) := by
  refine ⟨fun n => rfl, rfl, ?_⟩
  intro fuel env h
  simp [evalFuel, isIfSymbol, h, evalList, applyNative, listFoldl,
    extractListNumbers, extractNumber]

/-- C8 (witness): the amended theorem applied in the root environment. -/
theorem c8_witness :
    evalFuel 2 (.List [.Symbol "+", .Number 1]) initialEnvironment
      = some (.ok (.Number 1))
    ∧ applyNative .add [.Number 7] = .ok (.Number 7) :=
  ⟨c8_theorem.2.2 0 initialEnvironment rfl, c8_theorem.1 7⟩

/-- C9 (confirmed): the `let` handler (src/src/keywords.rs `eval_let`,
lines 71-84): any argument count other than exactly 2 is
`ArgumentError(2, 2)`; a non-`Symbol` first argument is
`TypeError "Symbol"` (before the value expression is touched); otherwise
the value expression is evaluated, the result is inserted into the current
(and only) scope — the returned environment differs from the input
environment exactly by that one binding — and the bound value is the
result of the form. -/
theorem c9_theorem :
    (∀ fuel args env, List.length args ≠ 2 →
        evalLet fuel args env = some (.error (.ArgumentError 2 2)))
    ∧ (∀ fuel x y env, isSymbol x = false →
        evalLet fuel [x, y] env = some (.error (.TypeError "Symbol")))
    ∧ (∀ fuel s y env v, evalFuel fuel y env = some (.ok v) →
        evalLet fuel [.Symbol s, y] env = some (.ok (v, envInsert s v env))) := by
  refine ⟨?_, ?_, ?_⟩
  · intro fuel args env h
    rcases args with _ | ⟨a, _ | ⟨b, _ | ⟨c, rest⟩⟩⟩ <;>
      first
      | rfl
      | exact absurd rfl h
  · intro fuel x y env h
    cases x <;> simp_all [evalLet, isSymbol]
  · intro fuel s y env v h
    simp [evalLet, h]

/-- C9 (witness): the theorem applied at concrete inputs: binding `x` to
`5` in the root environment, an empty argument list, and a numeric first
argument. -/
theorem c9_witness :
    evalLet 1 [.Symbol "x", .Number 5] initialEnvironment
      = some (.ok (.Number 5, envInsert "x" (.Number 5) initialEnvironment))
    ∧ evalLet 1 [] initialEnvironment = some (.error (.ArgumentError 2 2))
    ∧ evalLet 1 [.Number 1, .Number 2] initialEnvironment
      = some (.error (.TypeError "Symbol")) :=
  ⟨c9_theorem.2.2 1 "x" (.Number 5) initialEnvironment (.Number 5) rfl,
   c9_theorem.1 1 [] initialEnvironment (by decide),
   c9_theorem.2.1 1 (.Number 1) (.Number 2) initialEnvironment rfl⟩

/-- C10 (confirmed): parsing the empty token sequence returns `Ok` with
`Nil` and no remaining tokens — for the top-level wrapper and for every
positive fuel and accumulator — never a `ParseError`. -/
theorem c10_theorem :
    parseTokens [] = some (.ok (.Nil, []))
    ∧ (∀ fuel res, parseGo (fuel + 1) false res [] = some (.ok (.Nil, []))) :=
  ⟨rfl, fun _ _ => rfl⟩
